import Mathlib

/-!
Verification of the GameOfLife repository (Grid / World / binary codec).

The definitions below are a shallow embedding of the C++ sources:
`grid.cpp` (Grid), `world.cpp` (World) and `zoo.cpp` (binary codec).
C++ `unsigned int` values are modelled as `Nat` (no claim exercises
32-bit wrap-around of coordinates or sizes), C++ `int` values that can
go negative are modelled as `Int` with truncated division/modulus
(`Int.tdiv`/`Int.tmod`, the semantics of C++ `/` and `%`), and every
operation that can throw is modelled as `Except Err _`, with the spec's
error taxonomy as the error type.
-/

namespace GameOfLife

/-- Cell values, from `enum Cell` in grid.h: a cell is DEAD or ALIVE. -/
inductive Cell where
  | DEAD : Cell
  | ALIVE : Cell
deriving DecidableEq, Repr

/-- Abstract error taxonomy of the specification.  Coordinate-check
failures of `get`/`set`/`operator()` are OutOfBounds, the guard failures
of `crop`/`merge` are InvalidArgument, and the two file-level errors of
the binary codec are TruncatedInput and FormatError. -/
inductive Err where
  | OutOfBounds : Err
  | InvalidArgument : Err
  | TruncatedInput : Err
  | FormatError : Err
deriving DecidableEq, Repr

/-- The Grid class: `width`, `height` and the row-major cell vector. -/
structure Grid where
  width : Nat
  height : Nat
  gridVector : List Cell
deriving DecidableEq, Repr

/-- Invariant of a real Grid object: the vector has `width * height` cells. -/
def Grid.wf (g : Grid) : Prop := g.gridVector.length = g.width * g.height

instance (g : Grid) : Decidable g.wf := by unfold Grid.wf; infer_instance

/-- Grid::are_valid_coordinates: `x >= 0 && x < width && y >= 0 && y < height`
(the unsigned `>= 0` parts are vacuous). -/
def Grid.are_valid_coordinates (g : Grid) (x y : Nat) : Bool :=
  decide (x < g.width) && decide (y < g.height)

/-- Grid::get_index: row-major offset `width * y + x`. -/
def Grid.get_index (g : Grid) (x y : Nat) : Nat := g.width * y + x

/-- Unchecked read of the cell vector at coordinate (x, y); the checked
accessors below go through this after validating the coordinate. -/
def Grid.cellAt (g : Grid) (x y : Nat) : Cell :=
  g.gridVector.getD (g.get_index x y) Cell.DEAD

/-- Grid::operator()(x, y) (both overloads): validate the coordinate,
then read the vector at the row-major index. -/
def Grid.opIndex (g : Grid) (x y : Nat) : Except Err Cell :=
  if g.are_valid_coordinates x y then Except.ok (g.cellAt x y)
  else Except.error Err.OutOfBounds

/-- Grid::get(x, y): validates the coordinate and then invokes operator(). -/
def Grid.get (g : Grid) (x y : Nat) : Except Err Cell :=
  if g.are_valid_coordinates x y then g.opIndex x y
  else Except.error Err.OutOfBounds

/-- Grid::set(x, y, cell): validates the coordinate and then assigns
through the mutable operator() reference. -/
def Grid.set (g : Grid) (x y : Nat) (c : Cell) : Except Err Grid :=
  if g.are_valid_coordinates x y then
    Except.ok { g with gridVector := g.gridVector.set (g.get_index x y) c }
  else Except.error Err.OutOfBounds

/-- Grid::Grid(width, height): a vector of `width * height` DEAD cells. -/
def mkGrid (width height : Nat) : Grid :=
  { width := width, height := height,
    gridVector := List.replicate (width * height) Cell.DEAD }

/-- Builds the grid produced by a nested `for y { for x { new(x, y) = f x y } }`
fill loop over a fresh `w : h` grid: row-major vector whose entry at
`w * y + x` is `f x y`. -/
def gridOfFun (w h : Nat) (f : Nat → Nat → Cell) : Grid :=
  { width := w, height := h,
    gridVector := List.ofFn (fun k : Fin (w * h) => f (k.val % w) (k.val / w)) }

/-- Grid::get_width. -/
def Grid.get_width (g : Grid) : Nat := g.width

/-- Grid::get_height. -/
def Grid.get_height (g : Grid) : Nat := g.height

/-- Grid::get_total_cells: `height * width`. -/
def Grid.get_total_cells (g : Grid) : Nat := g.height * g.width

/-- Grid::get_alive_cells: linear scan of `gridVector[0 .. height*width)`
counting ALIVE entries. -/
def Grid.get_alive_cells (g : Grid) : Nat :=
  (List.range (g.height * g.width)).foldl
    (fun c i => if g.gridVector.getD i Cell.DEAD = Cell.ALIVE then c + 1 else c) 0

/-- Grid::get_dead_cells: linear scan counting DEAD entries. -/
def Grid.get_dead_cells (g : Grid) : Nat :=
  (List.range (g.height * g.width)).foldl
    (fun c i => if g.gridVector.getD i Cell.DEAD = Cell.DEAD then c + 1 else c) 0

/-- Grid::crop(x0, y0, x1, y1).  The guard is the source's exact test:
`x0 >= width || x1 > width || y0 >= height || y1 > height` first, then
`x0 > x1 || y0 > y1`; when it passes, the nested loop fills the fresh
`(x1-x0) : (y1-y0)` grid with `newGrid(x-x0, y-y0) = get(x, y)` (all of
those accesses are within bounds given the guard). -/
def Grid.crop (g : Grid) (x0 y0 x1 y1 : Nat) : Except Err Grid :=
  if x0 ≥ g.width ∨ x1 > g.width ∨ y0 ≥ g.height ∨ y1 > g.height then
    Except.error Err.InvalidArgument
  else if x0 > x1 ∨ y0 > y1 then
    Except.error Err.InvalidArgument
  else
    Except.ok (gridOfFun (x1 - x0) (y1 - y0) (fun i j => g.cellAt (x0 + i) (y0 + j)))

/-- List of loop counter values of `for (v = a; v < b; v++)`. -/
def natRange (a b : Nat) : List Nat := (List.range (b - a)).map (a + ·)

/-- Grid::merge(other, x0, y0, alive_only), modelled statement by
statement, including the source's swapped loop bounds (the y loop runs
while `y < width && y < y0 + other.get_width()`, the x loop while
`x < height && x < x0 + other.get_height()`) and the second branch's
write to `(x - x0, y - y0)`. -/
def Grid.merge (g : Grid) (other : Grid) (x0 y0 : Nat) (alive_only : Bool) :
    Except Err Grid :=
  if other.get_width + x0 > g.width ∨ other.get_height + y0 > g.height ∨
      g.are_valid_coordinates x0 y0 = false then
    Except.error Err.InvalidArgument
  else
    (natRange y0 (min g.width (y0 + other.get_width))).foldlM (fun acc y =>
      (natRange x0 (min g.height (x0 + other.get_height))).foldlM (fun acc x => do
        let c ← other.opIndex (x - x0) (y - y0)
        if c = Cell.ALIVE ∧ alive_only then acc.set x y Cell.ALIVE
        else if alive_only then do
          let d ← acc.get x y
          if d = Cell.ALIVE then acc.set (x - x0) (y - y0) Cell.ALIVE
          else acc.set x y c
        else acc.set x y c) acc) g

/-- Case 0 of Grid::rotate: copy of the grid. -/
def Grid.rotCopy (g : Grid) : Grid :=
  gridOfFun g.width g.height (fun i j => g.cellAt i j)

/-- Case 1 (and -3) of Grid::rotate: `new(height - y - 1, x) = get(x, y)`
into a `height : width` grid, i.e. `new(i, j) = get(j, height - 1 - i)`. -/
def Grid.rotQuarter (g : Grid) : Grid :=
  gridOfFun g.height g.width (fun i j => g.cellAt j (g.height - 1 - i))

/-- Case 2 (and -2) of Grid::rotate: `new(width - x - 1, height - y - 1) = get(x, y)`. -/
def Grid.rotHalf (g : Grid) : Grid :=
  gridOfFun g.width g.height (fun i j => g.cellAt (g.width - 1 - i) (g.height - 1 - j))

/-- Case 3 (and -1) of Grid::rotate: `new(y, width - x - 1) = get(x, y)`
into a `height : width` grid, i.e. `new(i, j) = get(width - 1 - j, i)`. -/
def Grid.rotThreeQuarter (g : Grid) : Grid :=
  gridOfFun g.height g.width (fun i j => g.cellAt (g.width - 1 - j) i)

/-- The local `realRotation` variable of Grid::rotate: C++ `%` is the
truncated `Int.tmod`, and the source computes `rotation % -4` when the
argument is negative and `rotation % 4` otherwise. -/
def realTurn (k : Int) : Int :=
  if k < 0 then Int.tmod k (-4) else Int.tmod k 4

/-- Grid::rotate(k): switch over the normalized value's cases `0`,
`1|-3`, `2|-2`, `3|-1`, with an unreachable default returning the empty
`Grid()`. -/
def Grid.rotate (g : Grid) (k : Int) : Grid :=
  if realTurn k = 0 then g.rotCopy
  else if realTurn k = 1 ∨ realTurn k = -3 then g.rotQuarter
  else if realTurn k = 2 ∨ realTurn k = -2 then g.rotHalf
  else if realTurn k = 3 ∨ realTurn k = -1 then g.rotThreeQuarter
  else mkGrid 0 0

/-- The World class: the two equally sized buffers. -/
structure World where
  currGrid : Grid
  nextGrid : Grid
deriving DecidableEq, Repr

/-- World::World(width, height): both buffers are fresh DEAD grids. -/
def mkWorld (width height : Nat) : World :=
  { currGrid := mkGrid width height, nextGrid := mkGrid width height }

/-- World::World(initial_state): constructs at the initial grid's size,
then copies every cell of the initial grid into both buffers via the
nested for loops (`currGrid(x, y) = initial_state(x, y)` and likewise
for nextGrid; every access is in bounds). -/
def World.fromGrid (g : Grid) : World :=
  { currGrid := gridOfFun g.width g.height (fun x y => g.cellAt x y),
    nextGrid := gridOfFun g.width g.height (fun x y => g.cellAt x y) }

/-- World::get_width: the current grid's width. -/
def World.get_width (w : World) : Nat := w.currGrid.get_width

/-- World::get_height: the current grid's height. -/
def World.get_height (w : World) : Nat := w.currGrid.get_height

/-- World::get_total_cells. -/
def World.get_total_cells (w : World) : Nat :=
  w.currGrid.get_height * w.currGrid.get_width

/-- World::get_alive_cells. -/
def World.get_alive_cells (w : World) : Nat := w.currGrid.get_alive_cells

/-- World::get_state: read-only view of the current grid. -/
def World.get_state (w : World) : Grid := w.currGrid

/-- List of loop counter values of `for (int v = a; v <= b; v++)` for
integer bounds (empty when `b < a`), used by the non-toroidal branch of
count_neighbours. -/
def intRangeIncl (a b : Int) : List Int :=
  (List.range (b + 1 - a).toNat).map (fun n => a + (n : Int))

/-- World::count_neighbours(x, y, torodial), statement by statement.
`x_minus = x - 1` etc. are C++ int values; in the toroidal branch each
axis is adjusted by an `if / else if` pair (`x_minus == -1` wraps to
`width - 1`, OTHERWISE `x_plus == width` wraps to 0) and the 3x3 index
sets are walked; in the bounded branch the same `if / else if` shape
clamps the bounds and the rectangle is walked.  Every grid access goes
through the checked operator() and can fail.  Finally the centre cell is
subtracted when alive. -/
def World.count_neighbours (w : World) (x y : Nat) (torodial : Bool) :
    Except Err Nat := do
  let wd : Int := (w.get_width : Int)
  let ht : Int := (w.get_height : Int)
  let counter ←
    if torodial then
      let xm : Int := if (x : Int) - 1 = -1 then wd - 1 else (x : Int) - 1
      let xp : Int :=
        if (x : Int) - 1 = -1 then (x : Int) + 1
        else if (x : Int) + 1 = wd then 0 else (x : Int) + 1
      let ym : Int := if (y : Int) - 1 = -1 then ht - 1 else (y : Int) - 1
      let yp : Int :=
        if (y : Int) - 1 = -1 then (y : Int) + 1
        else if (y : Int) + 1 = ht then 0 else (y : Int) + 1
      let setX : List Nat := [xm.toNat, x, xp.toNat]
      let setY : List Nat := [ym.toNat, y, yp.toNat]
      setY.foldlM (fun c yy =>
        setX.foldlM (fun c xx => do
          let cell ← w.currGrid.opIndex xx yy
          pure (if cell = Cell.ALIVE then c + 1 else c)) c) 0
    else
      let xm : Int := if (x : Int) - 1 = -1 then ((x : Int) - 1) + 1 else (x : Int) - 1
      let xp : Int :=
        if (x : Int) - 1 = -1 then (x : Int) + 1
        else if (x : Int) + 1 = wd then ((x : Int) + 1) - 1 else (x : Int) + 1
      let ym : Int := if (y : Int) - 1 = -1 then ((y : Int) - 1) + 1 else (y : Int) - 1
      let yp : Int :=
        if (y : Int) - 1 = -1 then (y : Int) + 1
        else if (y : Int) + 1 = ht then ((y : Int) + 1) - 1 else (y : Int) + 1
      (intRangeIncl ym yp).foldlM (fun c j =>
        (intRangeIncl xm xp).foldlM (fun c i => do
          let cell ← w.currGrid.opIndex i.toNat j.toNat
          pure (if cell = Cell.ALIVE then c + 1 else c)) c) 0
  let centre ← w.currGrid.opIndex x y
  pure (if centre = Cell.ALIVE then counter - 1 else counter)

/-- World::step(torodial).  The outer loop runs `y < get_height()`; the
inner loop of the source also runs `x < get_height()` (not get_width).
Each cell computes count_neighbours, reads the current cell, writes the
rule's result into the next grid, and the buffers are swapped at the
end. -/
def World.step (w : World) (torodial : Bool) : Except Err World := do
  let ng ← (List.range w.get_height).foldlM (fun ng y =>
    (List.range w.get_height).foldlM (fun ng x => do
      let neighbours ← w.count_neighbours x y torodial
      let c ← w.currGrid.opIndex x y
      if c = Cell.ALIVE then
        if neighbours < 2 ∨ neighbours > 3 then ng.set x y Cell.DEAD
        else if neighbours = 2 ∨ neighbours = 3 then ng.set x y Cell.ALIVE
        else pure ng
      else if neighbours = 3 then ng.set x y Cell.ALIVE
      else ng.set x y Cell.DEAD) ng) w.nextGrid
  pure { currGrid := ng, nextGrid := w.currGrid }

/-- World::advance(steps, torodial): `steps` sequential calls to step. -/
def World.advance (w : World) (steps : Nat) (torodial : Bool) : Except Err World :=
  (List.range steps).foldlM (fun w _ => w.step torodial) w

/-- Little-endian byte list (4 bytes) of a 32-bit value. -/
def bytesOfNat32 (n : Nat) : List Nat :=
  [n % 256, n / 256 % 256, n / 65536 % 256, n / 16777216 % 256]

/-- Number of 4-byte chunks: `cells / 32`, plus one when `cells % 32 != 0`. -/
def chunkLoops (cells : Nat) : Nat :=
  cells / 32 + (if cells % 32 = 0 then 0 else 1)

/-- Value of the i-th 4-byte chunk written by Zoo::save_binary: the
inner j loop walks the (x, y) pointer in row-major order (cell index
`k = i*32 + j`, position `(k % width, k / width)`) and adds `2^j` for
each ALIVE cell, stopping (bits left 0) once the pointer has passed the
last cell. -/
def chunkValue (g : Grid) (i : Nat) : Nat :=
  (List.range 32).foldl (fun acc j =>
    let k := i * 32 + j
    if k < g.width * g.height ∧ g.cellAt (k % g.width) (k / g.width) = Cell.ALIVE
    then acc + 2 ^ j else acc) 0

/-- Zoo::save_binary, as the byte stream it writes: `width` as a 4-byte
little-endian int, then `height`, then the bit-packed chunks. -/
def save_binary (g : Grid) : List Nat :=
  bytesOfNat32 g.get_width ++ bytesOfNat32 g.get_height ++
    (List.range (chunkLoops (g.get_width * g.get_height))).flatMap
      (fun i => bytesOfNat32 (chunkValue g i))

/-- Signed 32-bit reinterpretation of a 4-byte little-endian value. -/
def toInt32 (n : Nat) : Int :=
  if n % 4294967296 < 2147483648 then (n % 4294967296 : Int)
  else (n % 4294967296 : Int) - 4294967296

/-- C++ conversion of an int to unsigned int: value modulo 2^32. -/
def toUnsigned32 (z : Int) : Nat := (z % 4294967296).toNat

/-- One `ifs.read(.., 4)` on a byte stream: when at least 4 bytes remain
the little-endian value is read and consumed without touching the eof
bit; otherwise the read fails, the eof bit becomes set and the
destination holds an unspecified value (modelled as 0 -- no theorem
below depends on the value of a failed read). -/
def read4 (bs : List Nat) (eof : Bool) : Nat × List Nat × Bool :=
  if 4 ≤ bs.length then
    (bs.getD 0 0 + 256 * bs.getD 1 0 + 65536 * bs.getD 2 0 +
      16777216 * bs.getD 3 0, bs.drop 4, eof)
  else (0, [], true)

/-- Zoo::load_binary, statement by statement.  NOTE the source reads the
FIRST header int into `height` and the second into `width` (the reverse
of what save_binary writes), performs no sign check before constructing
`Grid(width, height)` (a negative int converts to a huge unsigned), and
tests `ifs.eof()` BEFORE each chunk read, so the eof bit raised by a
failed read is only seen on the NEXT iteration.  Each set bit j of chunk
i sets cell `((i*32+j) % width, (i*32+j) / width)` ALIVE through the
checked operator(). -/
def load_binary (bytes : List Nat) : Except Err Grid :=
  let r0 := read4 bytes false
  let heightI : Int := toInt32 r0.1
  let r1 := read4 r0.2.1 r0.2.2
  let widthI : Int := toInt32 r1.1
  let g0 := mkGrid (toUnsigned32 widthI) (toUnsigned32 heightI)
  let cells : Nat := toUnsigned32 (widthI * heightI)
  let loops : Nat := cells / 32 + (if cells % 32 = 0 then 0 else 1)
  ((List.range loops).foldlM (fun (st : Grid × List Nat × Bool) i =>
      if st.2.2 then Except.error Err.TruncatedInput
      else
        let r := read4 st.2.1 st.2.2
        ((List.range 32).foldlM (fun (gg : Grid) (j : Nat) =>
            if r.1 / 2 ^ j % 2 = 1 then
              let k : Int := (i : Int) * 32 + (j : Int)
              gg.set (toUnsigned32 (k.tmod widthI)) (toUnsigned32 (k.tdiv widthI))
                Cell.ALIVE
            else pure gg) st.1).map (fun gg => (gg, r.2.1, r.2.2)))
    (g0, r1.2.1, r1.2.2)).map (fun st => st.1)

/-! Helper instances and lemmas. -/

instance {ε α : Type _} [DecidableEq ε] [DecidableEq α] : DecidableEq (Except ε α) :=
  fun a b =>
    match a, b with
    | Except.ok x, Except.ok y =>
      if h : x = y then Decidable.isTrue (by rw [h])
      else Decidable.isFalse (by intro hc; cases hc; exact h rfl)
    | Except.error x, Except.error y =>
      if h : x = y then Decidable.isTrue (by rw [h])
      else Decidable.isFalse (by intro hc; cases hc; exact h rfl)
    | Except.ok _, Except.error _ => Decidable.isFalse (by intro hc; cases hc)
    | Except.error _, Except.ok _ => Decidable.isFalse (by intro hc; cases hc)

theorem get_index_lt (g : Grid) {x y : Nat} (hx : x < g.width) (hy : y < g.height) :
    g.get_index x y < g.width * g.height := by
  unfold Grid.get_index
  have h1 : g.width * y + g.width = g.width * (y + 1) := by ring
  have h2 : g.width * (y + 1) ≤ g.width * g.height :=
    Nat.mul_le_mul_left _ (by omega)
  omega

theorem index_mod_div (w : Nat) {x y : Nat} (hx : x < w) :
    (w * y + x) % w = x ∧ (w * y + x) / w = y := by
  constructor
  · rw [Nat.mul_add_mod, Nat.mod_eq_of_lt hx]
  · rw [Nat.mul_add_div (by omega), Nat.div_eq_of_lt hx]; omega

theorem cellAt_gridOfFun (w h : Nat) (f : Nat → Nat → Cell) {x y : Nat}
    (hx : x < w) (hy : y < h) : (gridOfFun w h f).cellAt x y = f x y := by
  have hlt : w * y + x < w * h := get_index_lt (gridOfFun w h f) hx hy
  unfold Grid.cellAt gridOfFun Grid.get_index
  rw [List.getD_eq_getElem _ _ (by simpa using hlt), List.getElem_ofFn,
    (index_mod_div w hx).1, (index_mod_div w hx).2]

theorem wf_gridOfFun (w h : Nat) (f : Nat → Nat → Cell) : (gridOfFun w h f).wf := by
  unfold Grid.wf gridOfFun
  simp

theorem gridOfFun_eq_self (g : Grid) (f : Nat → Nat → Cell) (hwf : g.wf)
    (hf : ∀ x y, x < g.width → y < g.height → f x y = g.cellAt x y) :
    gridOfFun g.width g.height f = g := by
  obtain ⟨w, h, vec⟩ := g
  simp only [Grid.wf] at hwf
  unfold gridOfFun
  simp only [Grid.mk.injEq, true_and]
  apply List.ext_getElem (by simp [hwf])
  intro n h1 h2
  have hn : n < w * h := by simpa using h1
  have hw : 0 < w := Nat.pos_of_ne_zero (by rintro rfl; simp at hn)
  have hxw : n % w < w := Nat.mod_lt _ hw
  have hyh : n / w < h := by
    rcases Nat.lt_or_ge (n / w) h with h' | h'
    · exact h'
    · exfalso
      have hm : w * h ≤ w * (n / w) := Nat.mul_le_mul_left _ h'
      have hdm := Nat.div_add_mod n w
      omega
  rw [List.getElem_ofFn]
  have hcell := hf (n % w) (n / w) hxw hyh
  simp only [Grid.cellAt, Grid.get_index] at hcell
  rw [hcell]
  have hidx : w * (n / w) + n % w = n := Nat.div_add_mod n w
  rw [hidx, List.getD_eq_getElem _ _ (by omega)]

theorem row_major_inj (g : Grid) {x y x' y' : Nat} (hx : x < g.width)
    (hx' : x' < g.width) (h : g.get_index x y = g.get_index x' y') :
    x = x' ∧ y = y' := by
  unfold Grid.get_index at h
  constructor
  · rw [← (index_mod_div g.width (y := y) hx).1,
      ← (index_mod_div g.width (y := y') hx').1, h]
  · rw [← (index_mod_div g.width (y := y) hx).2,
      ← (index_mod_div g.width (y := y') hx').2, h]

theorem opIndex_of_valid (g : Grid) {x y : Nat}
    (h : g.are_valid_coordinates x y = true) :
    g.opIndex x y = Except.ok (g.cellAt x y) := by
  unfold Grid.opIndex
  rw [h]
  simp

theorem get_of_valid (g : Grid) {x y : Nat}
    (h : g.are_valid_coordinates x y = true) :
    g.get x y = Except.ok (g.cellAt x y) := by
  unfold Grid.get
  rw [h, opIndex_of_valid g h]
  simp

theorem set_of_valid (g : Grid) {x y : Nat} (v : Cell)
    (h : g.are_valid_coordinates x y = true) :
    g.set x y v =
      Except.ok { g with gridVector := g.gridVector.set (g.get_index x y) v } := by
  unfold Grid.set
  rw [h]
  simp

theorem are_valid_of_lt (g : Grid) {x y : Nat} (hx : x < g.width)
    (hy : y < g.height) : g.are_valid_coordinates x y = true := by
  simp [Grid.are_valid_coordinates, hx, hy]

theorem are_valid_false_of_out (g : Grid) {x y : Nat}
    (h : g.width ≤ x ∨ g.height ≤ y) :
    g.are_valid_coordinates x y = false := by
  unfold Grid.are_valid_coordinates
  rcases h with h | h
  · simp [Nat.not_lt.mpr h]
  · simp [Nat.not_lt.mpr h]

theorem cellAt_set_self (g : Grid) (hwf : g.wf) {x y : Nat} (hx : x < g.width)
    (hy : y < g.height) (v : Cell) :
    ({ g with gridVector := g.gridVector.set (g.get_index x y) v }).cellAt x y
      = v := by
  show (g.gridVector.set (g.get_index x y) v).getD (g.get_index x y) Cell.DEAD = v
  have hidx : g.get_index x y < g.gridVector.length := by
    rw [hwf]; exact get_index_lt g hx hy
  rw [List.getD_eq_getElem _ _ (by simpa [List.length_set] using hidx),
    List.getElem_set_self]

theorem cellAt_set_ne (g : Grid) (hwf : g.wf) {x y x' y' : Nat} (hx : x < g.width)
    (hy : y < g.height) (hx' : x' < g.width) (hy' : y' < g.height) (v : Cell)
    (hne : g.get_index x y ≠ g.get_index x' y') :
    ({ g with gridVector := g.gridVector.set (g.get_index x y) v }).cellAt x' y'
      = g.cellAt x' y' := by
  show (g.gridVector.set (g.get_index x y) v).getD (g.get_index x' y') Cell.DEAD
    = g.gridVector.getD (g.get_index x' y') Cell.DEAD
  have hidx' : g.get_index x' y' < g.gridVector.length := by
    rw [hwf]; exact get_index_lt g hx' hy'
  rw [List.getD_eq_getElem _ _ (by simpa [List.length_set] using hidx'),
    List.getD_eq_getElem _ _ hidx', List.getElem_set_ne hne]

theorem foldlM_except_no_error {α β : Type _} (f : β → α → Except Err β) (e : Err)
    (hf : ∀ b a, f b a ≠ Except.error e) :
    ∀ (l : List α) (b : β), l.foldlM f b ≠ Except.error e := by
  intro l
  induction l with
  | nil =>
    intro b hc
    rw [show List.foldlM f b ([] : List α) = Except.ok b from rfl] at hc
    cases hc
  | cons a l ih =>
    intro b
    rw [List.foldlM_cons]
    cases hfa : f b a with
    | error e' =>
      rw [show (Except.error e' >>= fun b' => List.foldlM f b' l) =
        (Except.error e' : Except Err β) from rfl]
      intro hc
      cases hc
      exact hf b a hfa
    | ok b' =>
      rw [show (Except.ok b' >>= fun b' => List.foldlM f b' l) =
        List.foldlM f b' l from rfl]
      exact ih b'

theorem except_map_eq_error {α β : Type _} (f : α → β) (x : Except Err α) (e : Err)
    (h : Except.map f x = Except.error e) : x = Except.error e := by
  cases x with
  | error e' => simpa [Except.map] using h
  | ok a => simp [Except.map] at h

theorem set_no_error {e : Err} (he : e ≠ Err.OutOfBounds) (g : Grid) (x y : Nat)
    (c : Cell) : g.set x y c ≠ Except.error e := by
  unfold Grid.set
  split
  · intro hc; cases hc
  · intro hc; cases hc; exact he rfl

/-! Claim theorems. -/

/-- C1: the claim says World::step applies the Life rule to every cell
(x, y) with x < width and y < height, so a lone isolated ALIVE cell must
yield an all-DEAD current state after step(wrap=false).  The code's
inner loop instead runs `x < get_height()`: on a 3x2 world whose only
ALIVE cell sits at (2, 0), step succeeds but never recomputes column 2,
leaving one ALIVE cell in the swapped-in state; and on a 2x3 world step
aborts with an out-of-bounds access at x = 2. -/
theorem step_inner_loop_bounded_by_height :
    (Except.map (fun w => w.get_state.get_alive_cells)
      ((World.fromGrid (Grid.mk 3 2
        [Cell.DEAD, Cell.DEAD, Cell.ALIVE,
         Cell.DEAD, Cell.DEAD, Cell.DEAD])).step false)) = Except.ok 1
    ∧ (World.fromGrid (mkGrid 2 3)).step false = Except.error Err.OutOfBounds := by
  constructor
  · rfl
  · rfl

/-- C2: the claim says count_neighbours(x, y, wrap=false) never fails
and just excludes outside coordinates, for every grid with width, height
>= 1 (including 1x1).  On a 1x1 world the bounded branch clamps
`x_minus` but its `else if` then skips the `x_plus == width` clamp, so
the loop reads grid(1, 0), which is out of bounds: the call fails
instead of returning 0. -/
theorem count_neighbours_bounded_fails_on_1x1 :
    (World.fromGrid (mkGrid 1 1)).count_neighbours 0 0 false =
      Except.error Err.OutOfBounds := by rfl

/-- C3: the claim says count_neighbours(x, y, wrap=true) counts the 8
toroidal neighbor slots ((x+dx) mod w, (y+dy) mod h) for every grid with
width, height >= 1.  On a 1x1 world all 8 slots are (0, 0) itself, so
the call must return 0 on a DEAD grid; instead the `else if` structure
leaves `x_plus = 1 = width` unwrapped and the call fails out of
bounds. -/
theorem count_neighbours_toroidal_fails_on_1x1 :
    (World.fromGrid (mkGrid 1 1)).count_neighbours 0 0 true =
      Except.error Err.OutOfBounds := by rfl

/-- C4: the claim says load_binary(save_binary(g)) equals g including
width and height, for any grid.  save_binary writes width then height,
but load_binary reads its FIRST header int into `height` and the second
into `width`, so a 2x1 grid round-trips into a 1x2 grid: the dimensions
come back transposed. -/
theorem binary_round_trip_transposes_dimensions :
    load_binary (save_binary (Grid.mk 2 1 [Cell.ALIVE, Cell.DEAD])) =
      Except.ok (Grid.mk 1 2 [Cell.ALIVE, Cell.DEAD])
    ∧ (Grid.mk 2 1 [Cell.ALIVE, Cell.DEAD]).width = 2
    ∧ (Grid.mk 1 2 [Cell.ALIVE, Cell.DEAD]).width = 1 := by
  exact ⟨rfl, rfl, rfl⟩

/-- C5: the claim says load_binary fails with FormatError on a negative
header dimension and with TruncatedInput on every stream shorter than
the header-implied length.  The code has no dimension sign check at all
(a negative int silently converts to a huge unsigned size), so no input
can produce FormatError; and because `ifs.eof()` is tested BEFORE each
chunk read, a stream that is short by exactly its final chunk -- here a
1x1 header promising one chunk, with no chunk bytes -- is accepted
without any error. -/
theorem load_binary_missing_error_checks :
    load_binary [1, 0, 0, 0, 1, 0, 0, 0] = Except.ok (Grid.mk 1 1 [Cell.DEAD])
    ∧ ∀ bs : List Nat, load_binary bs ≠ Except.error Err.FormatError := by
  constructor
  · rfl
  · intro bs hc
    unfold load_binary at hc
    have := except_map_eq_error _ _ _ hc
    revert this
    apply foldlM_except_no_error
    intro st i
    split
    · intro h; cases h
    · intro h
      have := except_map_eq_error _ _ _ h
      revert this
      apply foldlM_except_no_error
      intro gg j
      split
      · exact set_no_error (by intro h'; cases h') _ _ _ _
      · intro h'; cases h'

/-- Witness for C5: the second half of load_binary_missing_error_checks
applied to a concrete header that declares height = -1 (bytes FF FF FF
FF): even the negative-dimension input the claim is about does not
produce FormatError. -/
theorem load_binary_missing_error_checks_witness :
    load_binary [255, 255, 255, 255, 1, 0, 0, 0] ≠
      Except.error Err.FormatError :=
  load_binary_missing_error_checks.2 [255, 255, 255, 255, 1, 0, 0, 0]

/-- C6: the claim says merge(s, x0, y0, alive_only=true) ORs the source
into the overlay window and leaves every cell outside the window
unchanged.  With destination 2x2 (ALIVE only at (1, 1)), source 1x1
all-DEAD placed at (1, 1): the source cell is DEAD and the destination
cell is ALIVE, so the code executes `set(x - x0, y - y0, ALIVE)` and
turns cell (0, 0) -- outside the overlay window -- from DEAD to
ALIVE. -/
theorem merge_alive_only_writes_outside_window :
    (Grid.mk 2 2 [Cell.DEAD, Cell.DEAD, Cell.DEAD, Cell.ALIVE]).merge
        (Grid.mk 1 1 [Cell.DEAD]) 1 1 true =
      Except.ok (Grid.mk 2 2 [Cell.ALIVE, Cell.DEAD, Cell.DEAD, Cell.ALIVE])
    ∧ (Grid.mk 2 2 [Cell.DEAD, Cell.DEAD, Cell.DEAD, Cell.ALIVE]).cellAt 0 0 =
      Cell.DEAD := by
  constructor
  · rfl
  · rfl

/-- C7 counterexample: the claim says an empty crop window flush at the
right edge (x0 = x1 = width) is NOT an error, but the source's guard
tests `x0 >= width` (not `x0 > width`), so cropping a 2x2 grid with
x0 = x1 = 2 fails with InvalidArgument. -/
theorem crop_empty_window_at_edge_rejected :
    (mkGrid 2 2).crop 2 0 2 2 = Except.error Err.InvalidArgument := by rfl

/-- C7 (amended): crop fails with InvalidArgument exactly when x0 >= w,
x1 > w, y0 >= h, y1 > h, x0 > x1 or y0 > y1 (so the left/top corner must
be strictly inside the grid); otherwise it returns a fresh
(x1-x0) : (y1-y0) grid whose cell (i, j) is the source cell
(x0+i, y0+j), the source being left untouched (crop is const). -/
theorem crop_spec (g : Grid) (x0 y0 x1 y1 : Nat) :
    ((g.width ≤ x0 ∨ g.width < x1 ∨ g.height ≤ y0 ∨ g.height < y1 ∨
        x1 < x0 ∨ y1 < y0) →
      g.crop x0 y0 x1 y1 = Except.error Err.InvalidArgument)
    ∧ (x0 < g.width → x1 ≤ g.width → y0 < g.height → y1 ≤ g.height →
        x0 ≤ x1 → y0 ≤ y1 →
      ∃ g', g.crop x0 y0 x1 y1 = Except.ok g' ∧ g'.wf ∧
        g'.width = x1 - x0 ∧ g'.height = y1 - y0 ∧
        ∀ i j, i < x1 - x0 → j < y1 - y0 →
          g'.cellAt i j = g.cellAt (x0 + i) (y0 + j) ∧
          g'.get i j = g.get (x0 + i) (y0 + j)) := by
  constructor
  · intro hbad
    unfold Grid.crop
    by_cases h1 : x0 ≥ g.width ∨ x1 > g.width ∨ y0 ≥ g.height ∨ y1 > g.height
    · rw [if_pos h1]
    · rw [if_neg h1, if_pos (by omega)]
  · intro hx0 hx1 hy0 hy1 hxx hyy
    unfold Grid.crop
    rw [if_neg (by omega), if_neg (by omega)]
    refine ⟨_, rfl, wf_gridOfFun _ _ _, rfl, rfl, ?_⟩
    intro i j hi hj
    have hxi : x0 + i < g.width := by omega
    have hyj : y0 + j < g.height := by omega
    have hcell := cellAt_gridOfFun (x1 - x0) (y1 - y0)
      (fun i j => g.cellAt (x0 + i) (y0 + j)) hi hj
    refine ⟨hcell, ?_⟩
    have hv1 : (gridOfFun (x1 - x0) (y1 - y0)
        (fun i j => g.cellAt (x0 + i) (y0 + j))).are_valid_coordinates i j = true := by
      simp [Grid.are_valid_coordinates, gridOfFun, hi, hj]
    have hv2 : g.are_valid_coordinates (x0 + i) (y0 + j) = true := by
      simp [Grid.are_valid_coordinates, hxi, hyj]
    unfold Grid.get Grid.opIndex
    rw [hv1, hv2]
    simp [hcell]

/-- C9: for every well-formed grid and every in-bounds (x, y), set
followed by get returns the written value and leaves every other cell
unchanged; for any x >= width or y >= height, get, set and the indexing
operator all fail with OutOfBounds (and, being pure failures, leave the
grid unchanged). -/
theorem get_set_spec (g : Grid) (x y : Nat) (v : Cell) (hwf : g.wf)
    (hx : x < g.width) (hy : y < g.height) :
    (∃ g', g.set x y v = Except.ok g' ∧ g'.wf ∧ g'.width = g.width ∧
      g'.height = g.height ∧ g'.get x y = Except.ok v ∧
      ∀ x' y', x' < g.width → y' < g.height → ¬(x' = x ∧ y' = y) →
        g'.get x' y' = g.get x' y')
    ∧ ∀ x' y' v', g.width ≤ x' ∨ g.height ≤ y' →
        g.get x' y' = Except.error Err.OutOfBounds ∧
        g.opIndex x' y' = Except.error Err.OutOfBounds ∧
        g.set x' y' v' = Except.error Err.OutOfBounds := by
  have hvalid : g.are_valid_coordinates x y = true := are_valid_of_lt g hx hy
  constructor
  · refine ⟨{ g with gridVector := g.gridVector.set (g.get_index x y) v },
      set_of_valid g v hvalid, ?_, rfl, rfl, ?_, ?_⟩
    · show (g.gridVector.set (g.get_index x y) v).length = g.width * g.height
      rw [List.length_set]
      exact hwf
    · have hvalid2 : ({ g with
          gridVector := g.gridVector.set (g.get_index x y) v } : Grid
          ).are_valid_coordinates x y = true := hvalid
      rw [get_of_valid _ hvalid2, cellAt_set_self g hwf hx hy v]
    · intro x' y' hx' hy' hne
      have hvalid' : g.are_valid_coordinates x' y' = true :=
        are_valid_of_lt g hx' hy'
      have hvalid2 : ({ g with
          gridVector := g.gridVector.set (g.get_index x y) v } : Grid
          ).are_valid_coordinates x' y' = true := hvalid'
      have hidxne : g.get_index x y ≠ g.get_index x' y' := by
        intro hc
        exact hne ⟨(row_major_inj g hx hx' hc).1.symm,
          (row_major_inj g hx hx' hc).2.symm⟩
      rw [get_of_valid _ hvalid2, get_of_valid _ hvalid',
        cellAt_set_ne g hwf hx hy hx' hy' v hidxne]
  · intro x' y' v' hout
    have hv : g.are_valid_coordinates x' y' = false :=
      are_valid_false_of_out g hout
    unfold Grid.get Grid.opIndex Grid.set
    rw [hv]
    simp

/-- C10: Grid::merge requires the placement offset itself to be a valid
coordinate of the destination (the guard calls are_valid_coordinates on
(x0, y0)), so any x0 >= width or y0 >= height -- including a 0x0
destination, or a zero-sized source placed flush at the right or bottom
edge even though it fits -- fails with InvalidArgument. -/
theorem merge_requires_valid_offset (g other : Grid) (x0 y0 : Nat) (ao : Bool)
    (h : g.width ≤ x0 ∨ g.height ≤ y0) :
    g.merge other x0 y0 ao = Except.error Err.InvalidArgument := by
  have hv : g.are_valid_coordinates x0 y0 = false := by
    unfold Grid.are_valid_coordinates
    rcases h with h | h
    · simp [Nat.not_lt.mpr h]
    · simp [Nat.not_lt.mpr h]
  unfold Grid.merge
  rw [if_pos (Or.inr (Or.inr hv))]

/-- Witness for C7: concrete instance of both halves of crop_spec on a
2x2 all-DEAD grid. -/
theorem crop_spec_witness :
    ((mkGrid 2 2).crop 2 0 2 2 = Except.error Err.InvalidArgument)
    ∧ (∃ g', (mkGrid 2 2).crop 0 0 1 2 = Except.ok g' ∧ g'.wf ∧
        g'.width = 1 ∧ g'.height = 2 ∧
        ∀ i j, i < 1 → j < 2 →
          g'.cellAt i j = (mkGrid 2 2).cellAt (0 + i) (0 + j) ∧
          g'.get i j = (mkGrid 2 2).get (0 + i) (0 + j)) :=
  ⟨(crop_spec (mkGrid 2 2) 2 0 2 2).1 (by decide),
   (crop_spec (mkGrid 2 2) 0 0 1 2).2 (by decide) (by decide) (by decide)
     (by decide) (by decide) (by decide)⟩

/-- Witness for C9: concrete instance of get_set_spec on a 2x2 all-DEAD
grid at (0, 1). -/
theorem get_set_spec_witness :
    (∃ g', (mkGrid 2 2).set 0 1 Cell.ALIVE = Except.ok g' ∧ g'.wf ∧
      g'.width = 2 ∧ g'.height = 2 ∧ g'.get 0 1 = Except.ok Cell.ALIVE ∧
      ∀ x' y', x' < 2 → y' < 2 → ¬(x' = 0 ∧ y' = 1) →
        g'.get x' y' = (mkGrid 2 2).get x' y')
    ∧ ∀ x' y' v', 2 ≤ x' ∨ 2 ≤ y' →
        (mkGrid 2 2).get x' y' = Except.error Err.OutOfBounds ∧
        (mkGrid 2 2).opIndex x' y' = Except.error Err.OutOfBounds ∧
        (mkGrid 2 2).set x' y' v' = Except.error Err.OutOfBounds :=
  get_set_spec (mkGrid 2 2) 0 1 Cell.ALIVE (by decide) (by decide) (by decide)

/-- Witness for C10: a 0x0 destination rejects every merge, and a
zero-width source placed flush at x0 = width of a 2x2 destination is
rejected even though it fits. -/
theorem merge_requires_valid_offset_witness :
    (mkGrid 0 0).merge (mkGrid 0 0) 0 0 true = Except.error Err.InvalidArgument
    ∧ (mkGrid 2 2).merge (mkGrid 0 2) 2 0 true =
        Except.error Err.InvalidArgument :=
  ⟨merge_requires_valid_offset (mkGrid 0 0) (mkGrid 0 0) 0 0 true
      (Or.inl (by decide)),
   merge_requires_valid_offset (mkGrid 2 2) (mkGrid 0 2) 2 0 true
      (Or.inl (by decide))⟩

/-- Selector for the four distinct rotation results, indexed by the
mathematical residue `k mod 4` in `[0, 4)`. -/
def rotSel (g : Grid) (r : Int) : Grid :=
  if r = 0 then g.rotCopy
  else if r = 1 then g.rotQuarter
  else if r = 2 then g.rotHalf
  else g.rotThreeQuarter

theorem tmod_neg_dividend (a b : Int) : Int.tmod (-a) b = -Int.tmod a b := by
  rw [Int.tmod_def, Int.tmod_def, Int.neg_tdiv]
  ring

theorem realTurn_eq (k : Int) :
    realTurn k = (if k < 0 ∧ k % 4 ≠ 0 then k % 4 - 4 else k % 4) := by
  unfold realTurn
  by_cases hk : k < 0
  · rw [if_pos hk, Int.tmod_neg]
    have h1 : Int.tmod k 4 = -Int.tmod (-k) 4 := by
      have h := tmod_neg_dividend (-k) 4
      rw [neg_neg] at h
      omega
    have h2 : Int.tmod (-k) 4 = (-k) % 4 := Int.tmod_eq_emod (by omega) (by norm_num)
    rw [h1, h2]
    by_cases h0 : k % 4 = 0
    · rw [if_neg (by omega)]
      omega
    · rw [if_pos ⟨hk, h0⟩]
      omega
  · rw [if_neg hk, Int.tmod_eq_emod (by omega) (by norm_num),
      if_neg (by omega)]

theorem rotate_eq_rotSel (g : Grid) (k : Int) : g.rotate k = rotSel g (k % 4) := by
  unfold Grid.rotate rotSel
  have h := realTurn_eq k
  have h4 : k % 4 = 0 ∨ k % 4 = 1 ∨ k % 4 = 2 ∨ k % 4 = 3 := by omega
  by_cases hneg : k < 0 ∧ k % 4 ≠ 0
  · rw [if_pos hneg] at h
    rcases h4 with h' | h' | h' | h'
    · exact absurd h' hneg.2
    · rw [h, h']; norm_num
    · rw [h, h']; norm_num
    · rw [h, h']; norm_num
  · rw [if_neg hneg] at h
    rcases h4 with h' | h' | h' | h'
    · rw [h, h']; norm_num
    · rw [h, h']; norm_num
    · rw [h, h']; norm_num
    · rw [h, h']; norm_num

theorem rotCopy_eq_self (g : Grid) (hwf : g.wf) : g.rotCopy = g := by
  unfold Grid.rotCopy
  exact gridOfFun_eq_self g _ hwf (fun x y hx hy => rfl)

theorem rotate_one (g : Grid) : g.rotate 1 = g.rotQuarter :=
  (rotate_eq_rotSel g 1).trans rfl

theorem cellAt_rotQuarter (g : Grid) {i j : Nat} (hi : i < g.height)
    (hj : j < g.width) :
    g.rotQuarter.cellAt i j = g.cellAt j (g.height - 1 - i) := by
  unfold Grid.rotQuarter
  exact cellAt_gridOfFun g.height g.width _ hi hj

theorem rotQuarter_four (g : Grid) (hwf : g.wf) :
    g.rotQuarter.rotQuarter.rotQuarter.rotQuarter = g := by
  refine Eq.trans ?_ (gridOfFun_eq_self g
    (fun i j => g.rotQuarter.rotQuarter.rotQuarter.cellAt j
      (g.rotQuarter.rotQuarter.rotQuarter.height - 1 - i)) hwf ?_)
  · rfl
  · intro x y hx hy
    have hd3 : g.rotQuarter.rotQuarter.rotQuarter.height = g.width := rfl
    have hd2h : g.rotQuarter.rotQuarter.height = g.height := rfl
    have hd2w : g.rotQuarter.rotQuarter.width = g.width := rfl
    have hd1h : g.rotQuarter.height = g.width := rfl
    have hd1w : g.rotQuarter.width = g.height := rfl
    show g.rotQuarter.rotQuarter.rotQuarter.cellAt y
      (g.rotQuarter.rotQuarter.rotQuarter.height - 1 - x) = g.cellAt x y
    rw [hd3]
    rw [cellAt_rotQuarter g.rotQuarter.rotQuarter
      (hd2h ▸ hy) (hd2w ▸ (by omega : g.width - 1 - x < g.width))]
    rw [hd2h]
    rw [cellAt_rotQuarter g.rotQuarter
      (hd1h ▸ (by omega : g.width - 1 - x < g.width))
      (hd1w ▸ (by omega : g.height - 1 - y < g.height))]
    rw [hd1h, (by omega : g.width - 1 - (g.width - 1 - x) = x)]
    rw [cellAt_rotQuarter g (by omega : g.height - 1 - y < g.height) hx]
    rw [(by omega : g.height - 1 - (g.height - 1 - y) = y)]

/-- C8: Grid::rotate(k) equals rotate(k mod 4) for every integer k
(positive, negative or zero); rotate(0) is an identity copy; four
applications of rotate(1) reproduce the original grid; and a rotation by
an odd multiple of 90 degrees swaps width and height while an even
multiple preserves them. -/
theorem rotate_spec (g : Grid) (k : Int) (hwf : g.wf) :
    g.rotate k = g.rotate (k % 4)
    ∧ g.rotate 0 = g
    ∧ ((((g.rotate 1).rotate 1).rotate 1).rotate 1) = g
    ∧ (k % 2 = 1 → (g.rotate k).width = g.height ∧ (g.rotate k).height = g.width)
    ∧ (k % 2 = 0 → (g.rotate k).width = g.width ∧
        (g.rotate k).height = g.height) := by
  have h4 : k % 4 = 0 ∨ k % 4 = 1 ∨ k % 4 = 2 ∨ k % 4 = 3 := by omega
  refine ⟨?_, ?_, ?_, ?_, ?_⟩
  · rw [rotate_eq_rotSel g k, rotate_eq_rotSel g (k % 4),
      Int.emod_emod_of_dvd k (dvd_refl 4)]
  · exact ((rotate_eq_rotSel g 0).trans rfl).trans (rotCopy_eq_self g hwf)
  · rw [rotate_one, rotate_one, rotate_one, rotate_one]
    exact rotQuarter_four g hwf
  · intro hodd
    rw [rotate_eq_rotSel g k]
    rcases h4 with h' | h' | h' | h'
    · omega
    · rw [h']; exact ⟨rfl, rfl⟩
    · omega
    · rw [h']; exact ⟨rfl, rfl⟩
  · intro heven
    rw [rotate_eq_rotSel g k]
    rcases h4 with h' | h' | h' | h'
    · rw [h']; exact ⟨rfl, rfl⟩
    · omega
    · rw [h']; exact ⟨rfl, rfl⟩
    · omega

/-- Witness for C8: rotate_spec instantiated on a concrete 2x1 grid with
k = -5 (an odd negative rotation count, -5 mod 4 = 3). -/
theorem rotate_spec_witness :
    (Grid.mk 2 1 [Cell.ALIVE, Cell.DEAD]).rotate (-5) =
        (Grid.mk 2 1 [Cell.ALIVE, Cell.DEAD]).rotate ((-5) % 4)
    ∧ (Grid.mk 2 1 [Cell.ALIVE, Cell.DEAD]).rotate 0 =
        Grid.mk 2 1 [Cell.ALIVE, Cell.DEAD]
    ∧ (((((Grid.mk 2 1 [Cell.ALIVE, Cell.DEAD]).rotate 1).rotate 1).rotate
          1).rotate 1) = Grid.mk 2 1 [Cell.ALIVE, Cell.DEAD]
    ∧ ((Grid.mk 2 1 [Cell.ALIVE, Cell.DEAD]).rotate (-5)).width = 1
    ∧ ((Grid.mk 2 1 [Cell.ALIVE, Cell.DEAD]).rotate (-5)).height = 2 :=
  ⟨(rotate_spec (Grid.mk 2 1 [Cell.ALIVE, Cell.DEAD]) (-5) (by decide)).1,
   (rotate_spec (Grid.mk 2 1 [Cell.ALIVE, Cell.DEAD]) (-5) (by decide)).2.1,
   (rotate_spec (Grid.mk 2 1 [Cell.ALIVE, Cell.DEAD]) (-5) (by decide)).2.2.1,
   ((rotate_spec (Grid.mk 2 1 [Cell.ALIVE, Cell.DEAD]) (-5)
      (by decide)).2.2.2.1 (by decide)).1,
   ((rotate_spec (Grid.mk 2 1 [Cell.ALIVE, Cell.DEAD]) (-5)
      (by decide)).2.2.2.1 (by decide)).2⟩

end GameOfLife
